import Mathlib

/-!
# Verification of the arcade-client gameplay session manager

Shallow embedding of `src/lib.rs`: a Godot extension whose single class
`GameplaySessionManager` owns an optional `GameSession` (a renet
`RenetClient` + `NetcodeClientTransport` + a sticky `transport_error` slot),
pumps it once per physics tick in `physics_process`, and (re)creates it in
`join_session`.

The renet / std library calls made by the manager (`client.update`,
`transport.update`, `transport.send_packets`, address parsing, socket bind,
clock reads, transport construction) are external collaborators.  They are
modelled as an environment of arbitrary functions (`Env`, `JoinEnv`), so every
theorem below is quantified over all behaviours of the library consistent with
its interface.  The per-channel message queues of the reliable client are
modelled concretely (lists in arrival order), since `receive_message` /
`send_message` pop/push them; that queue contract is the library boundary
stated in the specification (§4.3).

Machine integers: the `i64` GDScript-facing client id is an `Int`; the Rust
`as u64` cast is `% 2^64` on `Int` followed by `toNat`.  Byte payloads
(`Vec<u8>`) are lists of naturals.  `f64` tick deltas enter the manager only
through `Duration::from_secs_f64`, which is total for the nonnegative frame
times the host supplies; elapsed durations are therefore modelled abstractly
as naturals.
-/

namespace ArcadeClient

/-- A message payload: `Vec<u8>` in the source. -/
abbrev Msg := List Nat

/-- An elapsed duration (`std::time::Duration`), modelled abstractly. -/
abbrev Duration := Nat

/-- `renet::transport::NetcodeTransportError`, identified with the
human-readable description its `Display` implementation produces (the only
thing the manager extracts from it, in `transport_error_message`). -/
abbrev NetcodeTransportError := String

/-- Rust `Result<(), E>` as stored in the session's `transport_error` slot. -/
inductive RustResult (ε : Type) where
  | Ok : RustResult ε
  | Err (e : ε) : RustResult ε
  deriving DecidableEq, Repr

/-- `Result::is_err`. -/
def RustResult.isErr {ε : Type} : RustResult ε → Bool
  | .Ok => false
  | .Err _ => true

/-- `renet::DefaultChannel`: the three channels of the default configuration.
The manager only ever uses `ReliableOrdered`. -/
inductive DefaultChannel where
  | Unreliable
  | ReliableUnordered
  | ReliableOrdered
  deriving DecidableEq, Repr

/-- One queue of pending messages per default channel, in arrival order. -/
structure ChannelQueues where
  unreliable : List Msg
  reliableUnordered : List Msg
  reliableOrdered : List Msg
  deriving DecidableEq, Repr

/-- The empty queues of a freshly constructed client. -/
def ChannelQueues.empty : ChannelQueues := ⟨[], [], []⟩

/-- `renet::ConnectionConfig`; only its default value is ever used, so the
model keeps one representative field. -/
structure ConnectionConfig where
  available_bytes_per_tick : Nat
  deriving DecidableEq, Repr

/-- `ConnectionConfig::default()`. -/
def ConnectionConfig.default : ConnectionConfig := ⟨60000⟩

/-- `renet::RenetClient` at the interface the manager uses (spec §4.3):
a connection status, per-channel inbound/outbound queues, and opaque internal
timer/bookkeeping state advanced by the library's update calls. -/
structure RenetClient where
  config : ConnectionConfig
  connected : Bool
  inbound : ChannelQueues
  outbound : ChannelQueues
  internal_state : Nat
  deriving DecidableEq, Repr

/-- `RenetClient::new(config)`: a fresh, not-yet-connected client with empty
queues. -/
def RenetClient.new (config : ConnectionConfig) : RenetClient :=
  { config := config
    connected := false
    inbound := ChannelQueues.empty
    outbound := ChannelQueues.empty
    internal_state := 0 }

/-- `RenetClient::is_connected`. -/
def RenetClient.is_connected (c : RenetClient) : Bool := c.connected

/-- `RenetClient::receive_message(channel)`: pop the next queued inbound
message of that channel, or `none` when the queue is empty (spec §4.3:
"returns the next queued inbound message for that channel or indicates none
available"). -/
def RenetClient.receive_message (c : RenetClient) (channel : DefaultChannel) :
    Option (Msg × RenetClient) :=
  match channel with
  | .Unreliable =>
    match c.inbound.unreliable with
    | [] => none
    | m :: rest => some (m, { c with inbound := { c.inbound with unreliable := rest } })
  | .ReliableUnordered =>
    match c.inbound.reliableUnordered with
    | [] => none
    | m :: rest => some (m, { c with inbound := { c.inbound with reliableUnordered := rest } })
  | .ReliableOrdered =>
    match c.inbound.reliableOrdered with
    | [] => none
    | m :: rest => some (m, { c with inbound := { c.inbound with reliableOrdered := rest } })

/-- `RenetClient::send_message(channel, bytes)`: enqueue an outbound message
on that channel (no I/O; spec §4.3). -/
def RenetClient.send_message (c : RenetClient) (channel : DefaultChannel) (m : Msg) :
    RenetClient :=
  match channel with
  | .Unreliable =>
    { c with outbound := { c.outbound with unreliable := c.outbound.unreliable ++ [m] } }
  | .ReliableUnordered =>
    { c with outbound := { c.outbound with reliableUnordered := c.outbound.reliableUnordered ++ [m] } }
  | .ReliableOrdered =>
    { c with outbound := { c.outbound with reliableOrdered := c.outbound.reliableOrdered ++ [m] } }

/-- `std::net::Ipv6Addr` (eight 16-bit segments). -/
structure Ipv6Addr where
  segments : List Nat
  deriving DecidableEq, Repr

/-- `Ipv6Addr::UNSPECIFIED` (`::`, all-zero). -/
def Ipv6Addr.UNSPECIFIED : Ipv6Addr := ⟨[0, 0, 0, 0, 0, 0, 0, 0]⟩

/-- `std::net::IpAddr`. -/
inductive IpAddr where
  | V4 (a b c d : Nat)
  | V6 (addr : Ipv6Addr)
  deriving DecidableEq, Repr

/-- `std::net::SocketAddr`. -/
structure SocketAddr where
  ip : IpAddr
  port : Nat
  deriving DecidableEq, Repr

/-- `SocketAddr::new(ip, port)`. -/
def SocketAddr.new (ip : IpAddr) (port : Nat) : SocketAddr := ⟨ip, port⟩

/-- A bound `std::net::UdpSocket`, recording the address it was asked to bind
(the OS-assigned ephemeral port behind a port-0 request is opaque to the
manager and not modelled). -/
structure UdpSocket where
  boundAddr : SocketAddr
  deriving DecidableEq, Repr

/-- `renet::transport::ClientAuthentication`; the manager only builds the
`Unsecure` variant. -/
inductive ClientAuthentication where
  | Unsecure (server_addr : SocketAddr) (client_id : Nat)
      (user_data : Option (List Nat)) (protocol_id : Nat)
  deriving DecidableEq, Repr

/-- `renet::transport::NetcodeClientTransport`: retains its constructor
arguments plus opaque netcode session state advanced by the library. -/
structure NetcodeClientTransport where
  current_time : Duration
  authentication : ClientAuthentication
  socket : UdpSocket
  netcode_state : Nat
  deriving DecidableEq, Repr

/-- `GameSession` (source lines 31–41): one client, one transport, and the
sticky `transport_error: Result<(), NetcodeTransportError>` slot. -/
structure GameSession where
  client : RenetClient
  transport : NetcodeClientTransport
  transport_error : RustResult NetcodeTransportError
  deriving DecidableEq, Repr

/-- `GameplaySessionManager` (source lines 24–29): holds zero or one session.
The godot `base: Base<Node>` handle is engine plumbing and carries no state
the claims touch. -/
structure GameplaySessionManager where
  game_session : Option GameSession
  deriving DecidableEq, Repr

/-- `transport_has_error` (source lines 146–153). -/
def GameplaySessionManager.transport_has_error (m : GameplaySessionManager) : Bool :=
  match m.game_session with
  | some session => session.transport_error.isErr
  | none => false

/-- `transport_error_message` (source lines 157–166): the error's description
when a session exists and its slot is an error, the empty string otherwise.
(`GString::from_str` on a Rust `String` is infallible, so its `unwrap` never
panics.) -/
def GameplaySessionManager.transport_error_message (m : GameplaySessionManager) : String :=
  match m.game_session with
  | some session =>
    match session.transport_error with
    | .Err e => e
    | .Ok => ""
  | none => ""

/-- A Godot signal emission; the manager only ever emits `lost_connection`. -/
inductive Event where
  | lost_connection (reason : String)
  deriving DecidableEq, Repr

/-- The result of the step taken by `transport.update(..)` or
`transport.send_packets(..)`: the mutated transport and client (both are
`&mut`) and the returned `Result`. -/
structure TransportStep where
  transport : NetcodeClientTransport
  client : RenetClient
  result : RustResult NetcodeTransportError
  deriving DecidableEq, Repr

/-- The environment of one tick: the library calls `physics_process` makes
and the polled input state, all arbitrary. -/
structure Env where
  /-- `client.update(delta)` (renet): advances timers/ordering bookkeeping. -/
  clientUpdate : Duration → RenetClient → RenetClient
  /-- `transport.update(delta, &mut client)` (renet): socket reads, feeds the
  client, returns `Ok` or a terminal transport error. -/
  transportUpdate : Duration → NetcodeClientTransport → RenetClient → TransportStep
  /-- `Input::singleton().is_key_pressed(Key::W)` this tick. -/
  keyWPressed : Bool
  /-- `transport.send_packets(&mut client)` (renet): serializes queued
  outbound messages to the socket. -/
  sendPackets : NetcodeClientTransport → RenetClient → TransportStep

/-- What one `physics_process` call produced: the new manager state, the
signals emitted, and the inbound messages bound by the drain loop (the
hand-off point to the message consumer, a placeholder in the source). -/
structure TickResult where
  manager : GameplaySessionManager
  events : List Event
  received : List Msg
  deriving DecidableEq, Repr

/-- The drain loop of `physics_process` (source lines 77–84):
`while let Some(message) = client.receive_message(ReliableOrdered) { .. }`.
Returns the client after draining and the drained messages in drain order.
It terminates because each successful `receive_message` pops one message off
the `ReliableOrdered` inbound queue. -/
def drainInbound (c : RenetClient) : RenetClient × List Msg :=
  match h : c.receive_message .ReliableOrdered with
  | none => (c, [])
  | some (m, c₂) =>
    let r := drainInbound c₂
    (r.1, m :: r.2)
termination_by c.inbound.reliableOrdered.length
decreasing_by
  unfold RenetClient.receive_message at h
  cases hq : c.inbound.reliableOrdered with
  | nil => rw [hq] at h; simp at h
  | cons a rest =>
    rw [hq] at h
    simp only [Option.some.injEq, Prod.mk.injEq] at h
    rw [← h.2]
    simp [hq]

/-- The connected-state block of `physics_process` (source lines 76–92): when
the client reports connected, drain every reliable-ordered inbound message
and, if the W key is pressed this tick, enqueue the message `vec![8]` on the
reliable-ordered channel; otherwise leave the client alone.  Returns the
client afterwards and the messages the drain loop bound, in drain order. -/
def connectedExchange (env : Env) (c : RenetClient) : RenetClient × List Msg :=
  if c.is_connected then
    let d := drainInbound c
    (if env.keyWPressed then d.1.send_message .ReliableOrdered [8] else d.1, d.2)
  else
    (c, [])

/-- `physics_process` (source lines 53–104), one tick.  Mirrors the source
statement by statement: sticky-error early return; `client.update`;
`transport.update` stored into the error slot; error check + emit; if
connected, drain inbound and optionally enqueue `vec![8]` on W; `send_packets`
stored into the error slot; error check + emit.  (`Duration::from_secs_f64`
is the identity under the abstract `Duration`.) -/
def GameplaySessionManager.physics_process (m : GameplaySessionManager)
    (env : Env) (delta : Duration) : TickResult :=
  if m.transport_has_error then
    { manager := m, events := [], received := [] }
  else
    let deltadur : Duration := delta
    let m₁ : GameplaySessionManager :=
      match m.game_session with
      | none => m
      | some session =>
        let client₁ := env.clientUpdate deltadur session.client
        let step := env.transportUpdate deltadur session.transport client₁
        { game_session := some
            { client := step.client
              transport := step.transport
              transport_error := step.result } }
    if m₁.transport_has_error then
      { manager := m₁
        events := [Event.lost_connection m₁.transport_error_message]
        received := [] }
    else
      match m₁.game_session with
      | none => { manager := m₁, events := [], received := [] }
      | some session =>
        let dr := connectedExchange env session.client
        let step₂ := env.sendPackets session.transport dr.1
        let m₂ : GameplaySessionManager :=
          { game_session := some
              { client := step₂.client
                transport := step₂.transport
                transport_error := step₂.result } }
        if m₂.transport_has_error then
          { manager := m₂
            events := [Event.lost_connection m₂.transport_error_message]
            received := dr.2 }
        else
          { manager := m₂, events := [], received := dr.2 }

/-- A sequence of ticks, each with its own environment and delta; collects
all emitted events and all drained messages. -/
def runTicks (m : GameplaySessionManager) : List (Env × Duration) → TickResult
  | [] => { manager := m, events := [], received := [] }
  | (env, d) :: rest =>
    let r := m.physics_process env d
    let r' := runTicks r.manager rest
    { manager := r'.manager
      events := r.events ++ r'.events
      received := r.received ++ r'.received }

/-- Modelled from the spec: the tick pipeline in the order §4.1 prescribes
for a session with no prior error — (3) advance the Reliable Client by
`elapsed`; (4) advance the Transport Binding, storing its result into the
error slot, overwriting the previous value; (5) if an error is now present,
emit the lost-connection event with the error's description and stop;
(6) if connected, drain the reliable-ordered inbound queue and optionally
enqueue one outbound message; (7) flush via `send_packets`, storing its
result into the error slot; (8) if an error is now present, emit and stop.
Compared against `physics_process` in the C3 refinement theorem. -/
def tickSpecOrder (env : Env) (delta : Duration) (session : GameSession) : TickResult :=
  let client₁ := env.clientUpdate delta session.client
  let step := env.transportUpdate delta session.transport client₁
  let session₁ : GameSession :=
    { client := step.client, transport := step.transport, transport_error := step.result }
  match step.result with
  | RustResult.Err e =>
    { manager := ⟨some session₁⟩, events := [Event.lost_connection e], received := [] }
  | RustResult.Ok =>
    let dr := connectedExchange env session₁.client
    let step₂ := env.sendPackets session₁.transport dr.1
    let session₂ : GameSession :=
      { client := step₂.client, transport := step₂.transport, transport_error := step₂.result }
    match step₂.result with
    | RustResult.Err e =>
      { manager := ⟨some session₂⟩, events := [Event.lost_connection e], received := dr.2 }
    | RustResult.Ok =>
      { manager := ⟨some session₂⟩, events := [], received := dr.2 }

/-- The environment of one `join_session` call: address parsing
(`SocketAddr::from_str` of std), whether the wildcard bind fails, the clock
reading (`none` when `duration_since(UNIX_EPOCH)` fails), and whether
`NetcodeClientTransport::new` fails. -/
structure JoinEnv where
  parse : String → Option SocketAddr
  bindFails : SocketAddr → Bool
  nowSinceEpoch : Option Duration
  transportNewFails : Duration → ClientAuthentication → UdpSocket → Bool

/-- `UdpSocket::bind(addr)`: a socket bound at the requested address, or a
bind failure as the environment dictates. -/
def UdpSocket.bind (env : JoinEnv) (addr : SocketAddr) : Option UdpSocket :=
  if env.bindFails addr then none else some ⟨addr⟩

/-- `NetcodeClientTransport::new(current_time, authentication, socket)`:
retains its arguments; fails as the environment dictates. -/
def NetcodeClientTransport.new (env : JoinEnv) (current_time : Duration)
    (authentication : ClientAuthentication) (socket : UdpSocket) :
    Option NetcodeClientTransport :=
  if env.transportNewFails current_time authentication socket then none
  else some
    { current_time := current_time
      authentication := authentication
      socket := socket
      netcode_state := 0 }

/-- The Rust `client_id as u64` cast from `i64`: wraps modulo `2^64`. -/
def i64_as_u64 (n : Int) : Nat := (n % (2 : Int) ^ 64).toNat

/-- A `join_session` call's outcome: the manager state afterwards and, when
one of the `unwrap`s panicked, the panic description.  A panic unwinds before
the single assignment to `game_session`, so the manager comes back unchanged
in every `fatal` case. -/
structure JoinResult where
  manager : GameplaySessionManager
  fatal : Option String
  deriving DecidableEq, Repr

/-- `join_session` (source lines 114–144), statement by statement: fresh
client from the default config; parse the address (`unwrap`); bind a wildcard
IPv6 socket on port 0 (`unwrap`); read the clock (`unwrap`); build the
`Unsecure` authentication with the wrapped client id, no user data and
protocol id 0; construct the transport (`unwrap`); finally overwrite
`game_session`. -/
def GameplaySessionManager.join_session (m : GameplaySessionManager)
    (env : JoinEnv) (address : String) (client_id : Int) : JoinResult :=
  let client := RenetClient.new ConnectionConfig.default
  match env.parse address with
  | none => { manager := m, fatal := some "invalid socket address" }
  | some server_addr =>
    match UdpSocket.bind env (SocketAddr.new (IpAddr.V6 Ipv6Addr.UNSPECIFIED) 0) with
    | none => { manager := m, fatal := some "failed to bind udp socket" }
    | some socket =>
      match env.nowSinceEpoch with
      | none => { manager := m, fatal := some "system time before unix epoch" }
      | some current_time =>
        let authentication :=
          ClientAuthentication.Unsecure server_addr (i64_as_u64 client_id) none 0
        match NetcodeClientTransport.new env current_time authentication socket with
        | none => { manager := m, fatal := some "netcode transport construction failed" }
        | some transport =>
          { manager :=
              { game_session := some
                  { client := client
                    transport := transport
                    transport_error := RustResult.Ok } }
            fatal := none }

/-! ## Concrete instances

Sample managers, sessions and environments used to evaluate the definitions
on closed inputs. -/

/-- A sample server address (`127.0.0.1:5000`). -/
def sockAddrC : SocketAddr := ⟨IpAddr.V4 127 0 0 1, 5000⟩

/-- A sample transport, as `join_session` would construct it. -/
def transportC : NetcodeClientTransport :=
  { current_time := 0
    authentication := ClientAuthentication.Unsecure sockAddrC 42 none 0
    socket := ⟨SocketAddr.new (IpAddr.V6 Ipv6Addr.UNSPECIFIED) 0⟩
    netcode_state := 0 }

/-- A session whose error slot is `Ok`. -/
def sessionOkC : GameSession :=
  ⟨RenetClient.new ConnectionConfig.default, transportC, RustResult.Ok⟩

/-- A session whose error slot holds the error `"boom"`. -/
def sessionErrC : GameSession :=
  ⟨RenetClient.new ConnectionConfig.default, transportC, RustResult.Err "boom"⟩

/-- A manager with a healthy session. -/
def mgrOkC : GameplaySessionManager := ⟨some sessionOkC⟩

/-- A manager with an errored session. -/
def mgrErrC : GameplaySessionManager := ⟨some sessionErrC⟩

/-- A manager with no session. -/
def mgrNoneC : GameplaySessionManager := ⟨none⟩

/-- An environment in which the library calls succeed and change nothing. -/
def envIdle : Env :=
  { clientUpdate := fun _ c => c
    transportUpdate := fun _ t c => ⟨t, c, RustResult.Ok⟩
    keyWPressed := false
    sendPackets := fun t c => ⟨t, c, RustResult.Ok⟩ }

/-- An environment in which `transport.update` fails with `"boom"`. -/
def envFail : Env :=
  { envIdle with transportUpdate := fun _ t c => ⟨t, c, RustResult.Err "boom"⟩ }

/-- An environment in which `transport.update` connects the client and
delivers three inbound messages on the reliable-ordered channel. -/
def envConn : Env :=
  { envIdle with
    transportUpdate := fun _ t c =>
      ⟨t, { c with
              connected := true
              inbound := { c.inbound with reliableOrdered := [[1], [2, 3], [4]] } },
        RustResult.Ok⟩ }

/-- A join environment in which every step succeeds. -/
def joinEnvOk : JoinEnv :=
  { parse := fun _ => some sockAddrC
    bindFails := fun _ => false
    nowSinceEpoch := some 100
    transportNewFails := fun _ _ _ => false }

/-- A join environment in which the address does not parse. -/
def joinEnvBadAddr : JoinEnv := { joinEnvOk with parse := fun _ => none }

/-- The client `envConn`'s transport update produces from a fresh client. -/
def clientConnC : RenetClient :=
  { config := ConnectionConfig.default
    connected := true
    inbound := ⟨[], [], [[1], [2, 3], [4]]⟩
    outbound := ⟨[], [], []⟩
    internal_state := 0 }

/-- A session holding pending inbound and outbound messages and a stored
transport error — the worst case a rejoin must discard. -/
def sessionPendingC : GameSession :=
  { client :=
      { config := ConnectionConfig.default
        connected := true
        inbound := ⟨[[9]], [], [[1], [2]]⟩
        outbound := ⟨[], [], [[3]]⟩
        internal_state := 7 }
    transport := transportC
    transport_error := RustResult.Err "boom" }

/-- The manager `join_session` produces under `joinEnvOk` with client id 42. -/
def joinedMgrC : GameplaySessionManager :=
  ⟨some
    { client := RenetClient.new ConnectionConfig.default
      transport :=
        { current_time := 100
          authentication := ClientAuthentication.Unsecure sockAddrC 42 none 0
          socket := ⟨SocketAddr.new (IpAddr.V6 Ipv6Addr.UNSPECIFIED) 0⟩
          netcode_state := 0 }
      transport_error := RustResult.Ok }⟩

/-- The manager `join_session` produces under `joinEnvOk` with client id −1:
the wrapped identity is `2^64 − 1`. -/
def joinedMgrNegC : GameplaySessionManager :=
  ⟨some
    { client := RenetClient.new ConnectionConfig.default
      transport :=
        { current_time := 100
          authentication :=
            ClientAuthentication.Unsecure sockAddrC 18446744073709551615 none 0
          socket := ⟨SocketAddr.new (IpAddr.V6 Ipv6Addr.UNSPECIFIED) 0⟩
          netcode_state := 0 }
      transport_error := RustResult.Ok }⟩

/-! ## Helper lemmas -/

/-- A tick taken while the error slot holds an error changes nothing and
emits nothing (the early return on source line 57). -/
theorem physics_process_error_noop (m : GameplaySessionManager) (env : Env)
    (delta : Duration) (h : m.transport_has_error = true) :
    m.physics_process env delta = { manager := m, events := [], received := [] } := by
  unfold GameplaySessionManager.physics_process
  simp [h]

/-- Iterated form of `physics_process_error_noop`. -/
theorem runTicks_error_noop (m : GameplaySessionManager)
    (ticks : List (Env × Duration)) (h : m.transport_has_error = true) :
    runTicks m ticks = { manager := m, events := [], received := [] } := by
  induction ticks with
  | nil => rfl
  | cons t rest ih =>
    obtain ⟨env, d⟩ := t
    simp [runTicks, physics_process_error_noop m env d h, ih]

/-- A tick taken with no session changes nothing and emits nothing. -/
theorem physics_process_no_session_noop (m : GameplaySessionManager) (env : Env)
    (delta : Duration) (h : m.game_session = none) :
    m.physics_process env delta = { manager := m, events := [], received := [] } := by
  unfold GameplaySessionManager.physics_process
  simp [GameplaySessionManager.transport_has_error, h]

/-- Iterated form of `physics_process_no_session_noop`. -/
theorem runTicks_no_session_noop (m : GameplaySessionManager)
    (ticks : List (Env × Duration)) (h : m.game_session = none) :
    runTicks m ticks = { manager := m, events := [], received := [] } := by
  induction ticks with
  | nil => rfl
  | cons t rest ih =>
    obtain ⟨env, d⟩ := t
    simp [runTicks, physics_process_no_session_noop m env d h, ih]

/-- `drainInbound` over an explicit client: empties the reliable-ordered
inbound queue and returns its messages in order. -/
theorem drainInbound_eq_aux (q : List Msg) (cfg : ConnectionConfig) (conn : Bool)
    (u ru : List Msg) (outb : ChannelQueues) (st : Nat) :
    drainInbound ⟨cfg, conn, ⟨u, ru, q⟩, outb, st⟩ = (⟨cfg, conn, ⟨u, ru, []⟩, outb, st⟩, q) := by
  induction q with
  | nil =>
    unfold drainInbound
    simp [RenetClient.receive_message]
  | cons a rest ih =>
    unfold drainInbound
    simp only [RenetClient.receive_message]
    simp [ih]

/-- `drainInbound` empties the reliable-ordered inbound queue and returns its
messages in arrival order; the rest of the client is untouched. -/
theorem drainInbound_eq (c : RenetClient) :
    drainInbound c =
      ({ c with inbound := { c.inbound with reliableOrdered := [] } },
        c.inbound.reliableOrdered) := by
  obtain ⟨cfg, conn, ⟨u, ru, q⟩, outb, st⟩ := c
  exact drainInbound_eq_aux q cfg conn u ru outb st

/-- A tick on a clean session whose transport update fails: the error is
stored and surfaced, and the tick stops there. -/
theorem physics_process_update_err (env : Env) (delta : Duration)
    (cl : RenetClient) (tr t₁ : NetcodeClientTransport) (c₁ : RenetClient)
    (e : NetcodeTransportError)
    (hstep : env.transportUpdate delta tr (env.clientUpdate delta cl) = ⟨t₁, c₁, RustResult.Err e⟩) :
    GameplaySessionManager.physics_process ⟨some ⟨cl, tr, RustResult.Ok⟩⟩ env delta =
      { manager := ⟨some ⟨c₁, t₁, RustResult.Err e⟩⟩
        events := [Event.lost_connection e]
        received := [] } := by
  unfold GameplaySessionManager.physics_process
  simp [hstep, GameplaySessionManager.transport_has_error,
    GameplaySessionManager.transport_error_message, RustResult.isErr]

/-- A tick on a clean session whose transport update succeeds: the connected
exchange runs, `send_packets` result is stored, and the lost-connection event
fires exactly when that result is an error. -/
theorem physics_process_update_ok (env : Env) (delta : Duration)
    (cl : RenetClient) (tr t₁ t₂ : NetcodeClientTransport) (c₁ c₂ : RenetClient)
    (r₂ : RustResult NetcodeTransportError)
    (hstep : env.transportUpdate delta tr (env.clientUpdate delta cl) = ⟨t₁, c₁, RustResult.Ok⟩)
    (hsend : env.sendPackets t₁ (connectedExchange env c₁).1 = ⟨t₂, c₂, r₂⟩) :
    GameplaySessionManager.physics_process ⟨some ⟨cl, tr, RustResult.Ok⟩⟩ env delta =
      { manager := ⟨some ⟨c₂, t₂, r₂⟩⟩
        events :=
          match r₂ with
          | RustResult.Err e => [Event.lost_connection e]
          | RustResult.Ok => []
        received := (connectedExchange env c₁).2 } := by
  unfold GameplaySessionManager.physics_process
  cases r₂ with
  | Err e =>
    simp [hstep, hsend, GameplaySessionManager.transport_has_error,
      GameplaySessionManager.transport_error_message, RustResult.isErr]
  | Ok =>
    simp [hstep, hsend, GameplaySessionManager.transport_has_error,
      GameplaySessionManager.transport_error_message, RustResult.isErr]

/-- When the client is connected, the exchange's drained-message list is the
whole reliable-ordered inbound queue, in arrival order. -/
theorem connectedExchange_snd (env : Env) (c : RenetClient)
    (h : c.is_connected = true) :
    (connectedExchange env c).2 = c.inbound.reliableOrdered := by
  unfold connectedExchange
  rw [h]
  simp [drainInbound_eq]

/-- Shape of every successful `join_session`: the address parsed, the clock
read succeeded, and the manager's session was replaced by a fresh client and
a transport built from the wildcard-bound socket and the freshly constructed
authentication. -/
theorem join_session_success_shape (m : GameplaySessionManager) (env : JoinEnv)
    (address : String) (client_id : Int) (m' : GameplaySessionManager)
    (h : m.join_session env address client_id = ⟨m', none⟩) :
    ∃ sa current_time,
      env.parse address = some sa ∧
      env.nowSinceEpoch = some current_time ∧
      m' = ⟨some
        { client := RenetClient.new ConnectionConfig.default
          transport :=
            { current_time := current_time
              authentication :=
                ClientAuthentication.Unsecure sa (i64_as_u64 client_id) none 0
              socket := ⟨SocketAddr.new (IpAddr.V6 Ipv6Addr.UNSPECIFIED) 0⟩
              netcode_state := 0 }
          transport_error := RustResult.Ok }⟩ := by
  unfold GameplaySessionManager.join_session at h
  cases hp : env.parse address with
  | none => simp [hp] at h
  | some sa =>
    simp only [hp] at h
    by_cases hbf : env.bindFails (SocketAddr.new (IpAddr.V6 Ipv6Addr.UNSPECIFIED) 0)
    · simp [UdpSocket.bind, hbf] at h
    · simp only [UdpSocket.bind, hbf, Bool.false_eq_true, if_false] at h
      cases hn : env.nowSinceEpoch with
      | none => simp [hn] at h
      | some current_time =>
        simp only [hn] at h
        by_cases htf : env.transportNewFails current_time
            (ClientAuthentication.Unsecure sa (i64_as_u64 client_id) none 0)
            ⟨SocketAddr.new (IpAddr.V6 Ipv6Addr.UNSPECIFIED) 0⟩
        · simp [NetcodeClientTransport.new, htf] at h
        · simp only [NetcodeClientTransport.new, htf, Bool.false_eq_true, if_false] at h
          refine ⟨sa, current_time, rfl, rfl, ?_⟩
          injection h with h1 h2
          exact h1.symm

/-! ## Claim theorems -/

/-- C1: Sticky error.  Whenever a session exists and its `transport_error`
slot holds an error, every sequence of `physics_process` calls, with any
elapsed values and any library behaviour, performs no client/transport
updates, drains no messages, emits no signal, and leaves the whole manager
state — the error slot included — unchanged (only `join_session` can replace
it). -/
theorem sticky_error_all_ticks_noop (m : GameplaySessionManager)
    (ticks : List (Env × Duration)) (h : m.transport_has_error = true) :
    runTicks m ticks = { manager := m, events := [], received := [] } :=
  runTicks_error_noop m ticks h

theorem sticky_error_all_ticks_noop_witness :
    mgrErrC.transport_has_error = true ∧
      runTicks mgrErrC [(envIdle, 1), (envFail, 2)] =
        { manager := mgrErrC, events := [], received := [] } :=
  ⟨by decide, sticky_error_all_ticks_noop mgrErrC [(envIdle, 1), (envFail, 2)] (by decide)⟩

/-- C7: No-session tick is a silent no-op.  With `game_session = none`, every
sequence of `physics_process` calls emits no signal, performs no operation,
and leaves the manager unchanged (and the embedding is total: no panic). -/
theorem no_session_all_ticks_noop (m : GameplaySessionManager)
    (ticks : List (Env × Duration)) (h : m.game_session = none) :
    runTicks m ticks = { manager := m, events := [], received := [] } :=
  runTicks_no_session_noop m ticks h

theorem no_session_all_ticks_noop_witness :
    mgrNoneC.game_session = none ∧
      runTicks mgrNoneC [(envIdle, 1), (envFail, 2), (envConn, 3)] =
        { manager := mgrNoneC, events := [], received := [] } :=
  ⟨rfl, no_session_all_ticks_noop mgrNoneC [(envIdle, 1), (envFail, 2), (envConn, 3)] rfl⟩

/-- C10: `transport_has_error` is `true` exactly when a session exists and
its error slot is an error, and `transport_error_message` returns the error's
description in that case and the empty string when there is no session or the
slot is `Ok`. -/
theorem transport_error_query_correct (m : GameplaySessionManager) :
    (m.transport_has_error = true ↔
      ∃ s e, m.game_session = some s ∧ s.transport_error = RustResult.Err e) ∧
    (∀ s e, m.game_session = some s → s.transport_error = RustResult.Err e →
      m.transport_error_message = e) ∧
    (m.game_session = none → m.transport_error_message = "") ∧
    (∀ s, m.game_session = some s → s.transport_error = RustResult.Ok →
      m.transport_error_message = "") := by
  obtain ⟨gs⟩ := m
  cases gs with
  | none =>
    simp [GameplaySessionManager.transport_has_error,
      GameplaySessionManager.transport_error_message]
  | some s =>
    obtain ⟨cl, tr, terr⟩ := s
    cases terr with
    | Ok =>
      simp only [GameplaySessionManager.transport_has_error,
        GameplaySessionManager.transport_error_message, RustResult.isErr]
      refine ⟨by simp, ?_, by simp, by simp⟩
      intro s e hs he
      obtain rfl := Option.some.inj hs
      have he' : RustResult.Ok = RustResult.Err e := he
      exact RustResult.noConfusion he'
    | Err e =>
      simp only [GameplaySessionManager.transport_has_error,
        GameplaySessionManager.transport_error_message, RustResult.isErr]
      refine ⟨?_, ?_, by simp, ?_⟩
      · simp only [true_iff]
        exact ⟨_, e, rfl, rfl⟩
      · intro s e₁ hs he
        obtain rfl := Option.some.inj hs
        have he' : RustResult.Err e = RustResult.Err e₁ := he
        injection he'
      · intro s hs he
        obtain rfl := Option.some.inj hs
        have he' : RustResult.Err e = RustResult.Ok := he
        exact RustResult.noConfusion he'

theorem transport_error_query_correct_witness :
    mgrErrC.transport_has_error = true ∧ mgrErrC.transport_error_message = "boom" ∧
      mgrOkC.transport_error_message = "" ∧ mgrNoneC.transport_error_message = "" :=
  ⟨(transport_error_query_correct mgrErrC).1.mpr ⟨sessionErrC, "boom", rfl, rfl⟩,
    (transport_error_query_correct mgrErrC).2.1 sessionErrC "boom" rfl rfl,
    (transport_error_query_correct mgrOkC).2.2.2 sessionOkC rfl rfl,
    (transport_error_query_correct mgrNoneC).2.2.1 rfl⟩

/-- C2: At-most-one lost-connection event per failure.  A tick that starts
with a clean error slot and ends with a stored transport error (captured by
the transport update or by the `send_packets` flush) emits the
`lost_connection` signal exactly once, carrying the stored error's
description; and no subsequent tick sequence emits any signal again for that
same stored error. -/
theorem first_error_tick_emits_once (env : Env) (delta : Duration)
    (m : GameplaySessionManager) (h0 : m.transport_has_error = false)
    (hE : (m.physics_process env delta).manager.transport_has_error = true) :
    (m.physics_process env delta).events =
      [Event.lost_connection
        ((m.physics_process env delta).manager.transport_error_message)] ∧
    ∀ ticks, (runTicks (m.physics_process env delta).manager ticks).events = [] := by
  refine ⟨?_, fun ticks => by rw [runTicks_error_noop _ ticks hE]⟩
  obtain ⟨gs⟩ := m
  cases gs with
  | none =>
    rw [physics_process_no_session_noop ⟨none⟩ env delta rfl] at hE
    simp [GameplaySessionManager.transport_has_error] at hE
  | some session =>
    obtain ⟨cl, tr, terr⟩ := session
    cases terr with
    | Err e =>
      exfalso
      simp [GameplaySessionManager.transport_has_error, RustResult.isErr] at h0
    | Ok =>
      cases hstep : env.transportUpdate delta tr (env.clientUpdate delta cl) with
      | mk t₁ c₁ r₁ =>
        cases r₁ with
        | Err e =>
          rw [physics_process_update_err env delta cl tr t₁ c₁ e hstep]
          simp [GameplaySessionManager.transport_error_message]
        | Ok =>
          cases hsend : env.sendPackets t₁ (connectedExchange env c₁).1 with
          | mk t₂ c₂ r₂ =>
            rw [physics_process_update_ok env delta cl tr t₁ t₂ c₁ c₂ r₂ hstep hsend] at hE ⊢
            cases r₂ with
            | Err e => simp [GameplaySessionManager.transport_error_message]
            | Ok =>
              simp [GameplaySessionManager.transport_has_error, RustResult.isErr] at hE

theorem first_error_tick_emits_once_witness :
    mgrOkC.transport_has_error = false ∧
    (GameplaySessionManager.physics_process mgrOkC envFail 1).manager.transport_has_error = true ∧
    (GameplaySessionManager.physics_process mgrOkC envFail 1).events =
      [Event.lost_connection
        ((GameplaySessionManager.physics_process mgrOkC envFail 1).manager.transport_error_message)] ∧
    (runTicks (GameplaySessionManager.physics_process mgrOkC envFail 1).manager
      [(envIdle, 2), (envFail, 3)]).events = [] := by
  have h := first_error_tick_emits_once envFail 1 mgrOkC (by decide) (by decide)
  exact ⟨by decide, by decide, h.1, h.2 [(envIdle, 2), (envFail, 3)]⟩

/-- C3: Fixed tick order.  On a session with a clean error slot,
`physics_process` is exactly the pipeline the specification prescribes:
reliable-client update with `elapsed`, then transport update with `elapsed`
whose result is stored into the error slot (overwriting it), then — if no
error and connected — the inbound drain and optional outbound enqueue, then
`send_packets` whose result is stored into the error slot, with the
lost-connection emissions at the two prescribed points.  Quantified over all
library behaviours, this equality forces the claimed operation order. -/
theorem tick_pipeline_order (env : Env) (delta : Duration)
    (cl : RenetClient) (tr : NetcodeClientTransport) :
    GameplaySessionManager.physics_process ⟨some ⟨cl, tr, RustResult.Ok⟩⟩ env delta =
      tickSpecOrder env delta ⟨cl, tr, RustResult.Ok⟩ := by
  cases hstep : env.transportUpdate delta tr (env.clientUpdate delta cl) with
  | mk t₁ c₁ r₁ =>
    cases r₁ with
    | Err e =>
      rw [physics_process_update_err env delta cl tr t₁ c₁ e hstep]
      unfold tickSpecOrder
      simp [hstep]
    | Ok =>
      cases hsend : env.sendPackets t₁ (connectedExchange env c₁).1 with
      | mk t₂ c₂ r₂ =>
        rw [physics_process_update_ok env delta cl tr t₁ t₂ c₁ c₂ r₂ hstep hsend]
        unfold tickSpecOrder
        cases r₂ with
        | Err e => simp [hstep, hsend]
        | Ok => simp [hstep, hsend]

/-- C4: Connected-tick inbound drain.  When the session exists with a clean
slot, the transport update succeeds, and the updated client reports
connected, the tick's drained-message sequence — handed one at a time to the
message consumer — is exactly the reliable-ordered inbound queue of the
updated client, in arrival order. -/
theorem connected_tick_drains_in_order (env : Env) (delta : Duration)
    (cl : RenetClient) (tr t₁ : NetcodeClientTransport) (c₁ : RenetClient)
    (hstep : env.transportUpdate delta tr (env.clientUpdate delta cl) = ⟨t₁, c₁, RustResult.Ok⟩)
    (hconn : c₁.is_connected = true) :
    (GameplaySessionManager.physics_process ⟨some ⟨cl, tr, RustResult.Ok⟩⟩ env delta).received =
      c₁.inbound.reliableOrdered := by
  cases hsend : env.sendPackets t₁ (connectedExchange env c₁).1 with
  | mk t₂ c₂ r₂ =>
    rw [physics_process_update_ok env delta cl tr t₁ t₂ c₁ c₂ r₂ hstep hsend]
    exact connectedExchange_snd env c₁ hconn

theorem connected_tick_drains_in_order_witness :
    (GameplaySessionManager.physics_process ⟨some sessionOkC⟩ envConn 1).received =
      [[1], [2, 3], [4]] :=
  connected_tick_drains_in_order envConn 1 (RenetClient.new ConnectionConfig.default)
    transportC transportC clientConnC (by decide) (by decide)

/-- C5: Rejoin replaces state.  Whatever the prior state — pending messages,
stored error — every successful `join_session` replaces the session wholesale
with a freshly constructed client (whose queues are empty and connection is
down) and an `Ok` error slot, discarding everything the old session held. -/
theorem rejoin_replaces_state (m : GameplaySessionManager) (env : JoinEnv)
    (address : String) (client_id : Int) (m' : GameplaySessionManager)
    (h : m.join_session env address client_id = ⟨m', none⟩) :
    ∃ transport,
      m' = ⟨some
        { client := RenetClient.new ConnectionConfig.default
          transport := transport
          transport_error := RustResult.Ok }⟩ ∧
      (RenetClient.new ConnectionConfig.default).inbound = ChannelQueues.empty ∧
      (RenetClient.new ConnectionConfig.default).outbound = ChannelQueues.empty := by
  obtain ⟨sa, ct, hp, hn, hm⟩ := join_session_success_shape m env address client_id m' h
  exact ⟨_, hm, rfl, rfl⟩

theorem rejoin_replaces_state_witness :
    (GameplaySessionManager.join_session ⟨some sessionPendingC⟩ joinEnvOk "[::1]:5000" 42 =
      ⟨joinedMgrC, none⟩) ∧
    ∃ transport, joinedMgrC = ⟨some
      { client := RenetClient.new ConnectionConfig.default
        transport := transport
        transport_error := RustResult.Ok }⟩ ∧
      (RenetClient.new ConnectionConfig.default).inbound = ChannelQueues.empty ∧
      (RenetClient.new ConnectionConfig.default).outbound = ChannelQueues.empty :=
  ⟨by decide,
    rejoin_replaces_state ⟨some sessionPendingC⟩ joinEnvOk "[::1]:5000" 42 joinedMgrC (by decide)⟩

/-- C6: Setup-failure atomicity.  When the address does not parse,
`join_session` fails with the fatal (panic-style) setup error raised before
any assignment to `game_session`: the previously active session — error slot
and queued messages included — comes back bit-for-bit unchanged, and the
failure is the synchronous `fatal` outcome, not a `lost_connection` emission
(`join_session` emits no signal at all). -/
theorem unparseable_address_join_fatal (m : GameplaySessionManager) (env : JoinEnv)
    (address : String) (client_id : Int) (h : env.parse address = none) :
    m.join_session env address client_id = ⟨m, some "invalid socket address"⟩ := by
  unfold GameplaySessionManager.join_session
  simp [h]

theorem unparseable_address_join_fatal_witness :
    joinEnvBadAddr.parse "not-an-address" = none ∧
      GameplaySessionManager.join_session ⟨some sessionPendingC⟩ joinEnvBadAddr
          "not-an-address" 7 =
        ⟨⟨some sessionPendingC⟩, some "invalid socket address"⟩ :=
  ⟨rfl,
    unparseable_address_join_fatal ⟨some sessionPendingC⟩ joinEnvBadAddr "not-an-address" 7 rfl⟩

/-- C8: Join construction postcondition.  Every successful `join_session`
bound its UDP socket at the wildcard IPv6 address with port 0 and built the
authentication token from the parsed server address, the (wrapped) client id,
no user data, and protocol identifier 0. -/
theorem join_binds_wildcard_and_builds_token (m : GameplaySessionManager) (env : JoinEnv)
    (address : String) (client_id : Int) (m' : GameplaySessionManager) (sa : SocketAddr)
    (hp : env.parse address = some sa)
    (h : m.join_session env address client_id = ⟨m', none⟩) :
    ∃ s, m'.game_session = some s ∧
      s.transport.socket.boundAddr = SocketAddr.new (IpAddr.V6 Ipv6Addr.UNSPECIFIED) 0 ∧
      s.transport.authentication =
        ClientAuthentication.Unsecure sa (i64_as_u64 client_id) none 0 := by
  obtain ⟨sa', ct, hp', hn, hm⟩ := join_session_success_shape m env address client_id m' h
  rw [hp] at hp'
  obtain rfl := Option.some.inj hp'
  subst hm
  exact ⟨_, rfl, rfl, rfl⟩

theorem join_binds_wildcard_and_builds_token_witness :
    joinEnvOk.parse "[::1]:5000" = some sockAddrC ∧
    ∃ s, joinedMgrC.game_session = some s ∧
      s.transport.socket.boundAddr = SocketAddr.new (IpAddr.V6 Ipv6Addr.UNSPECIFIED) 0 ∧
      s.transport.authentication =
        ClientAuthentication.Unsecure sockAddrC (i64_as_u64 42) none 0 :=
  ⟨rfl,
    join_binds_wildcard_and_builds_token mgrNoneC joinEnvOk "[::1]:5000" 42 joinedMgrC
      sockAddrC rfl (by decide)⟩

/-- C9: The `i64` client id is converted by the wrapping `as u64` cast: for
every negative id `n` (in the `i64` range), the identity placed in the
authentication token of a successful join is `2^64 + n`, i.e. `n` modulo
`2^64`; negative values are never rejected. -/
theorem negative_client_id_wraps (m : GameplaySessionManager) (env : JoinEnv)
    (address : String) (n : Int) (m' : GameplaySessionManager)
    (h1 : -(2 : Int) ^ 63 ≤ n) (h2 : n < 0)
    (h : m.join_session env address n = ⟨m', none⟩) :
    ∃ s sa, m'.game_session = some s ∧ env.parse address = some sa ∧
      s.transport.authentication =
        ClientAuthentication.Unsecure sa (((2 : Int) ^ 64 + n).toNat) none 0 := by
  have hcast : i64_as_u64 n = ((2 : Int) ^ 64 + n).toNat := by
    unfold i64_as_u64
    have h64 : (2 : Int) ^ 64 = 18446744073709551616 := by norm_num
    have h63 : (2 : Int) ^ 63 = 9223372036854775808 := by norm_num
    rw [h64]
    rw [h63] at h1
    omega
  obtain ⟨sa, ct, hp, hn, hm⟩ := join_session_success_shape m env address n m' h
  subst hm
  refine ⟨_, sa, rfl, hp, ?_⟩
  show ClientAuthentication.Unsecure sa (i64_as_u64 n) none 0 =
    ClientAuthentication.Unsecure sa (((2 : Int) ^ 64 + n).toNat) none 0
  rw [hcast]

theorem negative_client_id_wraps_witness :
    (-(2 : Int) ^ 63 ≤ -1) ∧ ((-1 : Int) < 0) ∧
    ∃ s sa, joinedMgrNegC.game_session = some s ∧
      joinEnvOk.parse "[::1]:5000" = some sa ∧
      s.transport.authentication =
        ClientAuthentication.Unsecure sa (((2 : Int) ^ 64 + (-1)).toNat) none 0 :=
  ⟨by norm_num, by norm_num,
    negative_client_id_wraps mgrNoneC joinEnvOk "[::1]:5000" (-1) joinedMgrNegC
      (by norm_num) (by norm_num) (by decide)⟩

end ArcadeClient
